import Mathlib

/-!
Verification of the GPS-Tracking repository's telemetry core.

The development shallowly embeds two pieces of the repository:

* `src/src/lib/location.ts` — the pure calculation library (haversine
  distance, forward-azimuth bearing, speed, motion classification), modelled
  over the real numbers; JavaScript's `Math.round`, truncating `%` and
  `Math.atan2` are given explicit definitions.
* `src/mini-services/gps-ws-service/index.ts` — the WebSocket service:
  its per-socket state (`connectedDevices`, `socketToUser`, socket.io rooms)
  and the five event handlers, modelled as pure state transformers that also
  return the list of emissions they perform.  A ghost field `closed` records
  which socket ids have been disconnected; it influences no behaviour.
* the speed/heading/motion fragment of `src/src/app/api/locations/route.ts`
  (POST handler, lines 69–94 plus the derived `speedMph`/stored value).

Theorems about these definitions settle the frozen claims; each claim's
theorem carries a doc comment naming the claim.
-/

namespace GpsTracking

noncomputable section

open Classical

/-- JavaScript truncation toward zero (`Math.trunc`, and the integral part
used by the `%` operator on numbers). -/
def jsTrunc (x : ℝ) : ℤ :=
  if 0 ≤ x then ⌊x⌋ else ⌈x⌉

/-- JavaScript's `%` on numbers: `a % n = a - n * trunc(a / n)` (the result
has the sign of the dividend). -/
def jsMod (a n : ℝ) : ℝ :=
  a - n * (jsTrunc (a / n) : ℝ)

/-- JavaScript's `Math.round`: round half toward positive infinity,
`Math.round(x) = floor(x + 0.5)`. -/
def jsRound (x : ℝ) : ℤ :=
  ⌊x + 1 / 2⌋

/-- `Math.round(x * 10) / 10` — round to one decimal place. -/
def round1 (x : ℝ) : ℝ :=
  (jsRound (x * 10) : ℝ) / 10

/-- `Math.round(x * 100) / 100` — round to two decimal places. -/
def round2 (x : ℝ) : ℝ :=
  (jsRound (x * 100) : ℝ) / 100

/-- JavaScript's `Math.atan2(y, x)`, written out over ℝ in terms of
`Real.arctan` (signed zeros do not exist in ℝ; `atan2 0 x = 0` for `x ≥ 0`
and `π` for `x < 0`, matching `Math.atan2(+0, x)`). -/
def atan2 (y x : ℝ) : ℝ :=
  if 0 < x then Real.arctan (y / x)
  else if x < 0 then
    (if 0 ≤ y then Real.arctan (y / x) + Real.pi else Real.arctan (y / x) - Real.pi)
  else
    (if 0 < y then Real.pi / 2 else if y < 0 then -(Real.pi / 2) else 0)

/-! ## src/src/lib/location.ts -/

/-- `const EARTH_RADIUS_KM = 6371` -/
def EARTH_RADIUS_KM : ℝ := 6371

/-- `toRadians(degrees) = degrees * (Math.PI / 180)` -/
def toRadians (degrees : ℝ) : ℝ :=
  degrees * (Real.pi / 180)

/-- `toDegrees(radians) = radians * (180 / Math.PI)` -/
def toDegrees (radians : ℝ) : ℝ :=
  radians * (180 / Real.pi)

/-- `calculateDistance(lat1, lon1, lat2, lon2)`: haversine distance in km. -/
def calculateDistance (lat1 lon1 lat2 lon2 : ℝ) : ℝ :=
  let dLat := toRadians (lat2 - lat1)
  let dLon := toRadians (lon2 - lon1)
  let a :=
    Real.sin (dLat / 2) * Real.sin (dLat / 2) +
      Real.cos (toRadians lat1) * Real.cos (toRadians lat2) *
        Real.sin (dLon / 2) * Real.sin (dLon / 2)
  let c := 2 * atan2 (Real.sqrt a) (Real.sqrt (1 - a))
  EARTH_RADIUS_KM * c

/-- `calculateBearing(lat1, lon1, lat2, lon2)`: forward azimuth, normalized
by `(bearing + 360) % 360`. -/
def calculateBearing (lat1 lon1 lat2 lon2 : ℝ) : ℝ :=
  let dLon := toRadians (lon2 - lon1)
  let y := Real.sin dLon * Real.cos (toRadians lat2)
  let x :=
    Real.cos (toRadians lat1) * Real.sin (toRadians lat2) -
      Real.sin (toRadians lat1) * Real.cos (toRadians lat2) * Real.cos dLon
  jsMod (toDegrees (atan2 y x) + 360) 360

/-- `getCompassDirection(bearing)`: `directions[Math.round(bearing / 45) % 8]`.
`Int.emod` agrees with JavaScript's `%` on the non-negative operands this is
used with (bearing is normalized into `[0, 360)` before the call). -/
def getCompassDirection (bearing : ℝ) : String :=
  let directions := ["N", "NE", "E", "SE", "S", "SW", "W", "NW"]
  let index := Int.emod (jsRound (bearing / 45)) 8
  directions.getD index.toNat ("N")

/-- The `{ kmh, mph }` object returned by `calculateSpeed`. -/
structure Speed where
  kmh : ℝ
  mph : ℝ

/-- `calculateSpeed(distanceKm, timeMs)`: `if (timeMs === 0) return {kmh:0,mph:0}`,
otherwise km/h = distance over elapsed hours and mph = km/h × 0.621371, each
rounded to one decimal. -/
def calculateSpeed (distanceKm timeMs : ℝ) : Speed :=
  if timeMs = 0 then ⟨0, 0⟩
  else
    let hours := timeMs / (1000 * 60 * 60)
    let speedKmh := distanceKm / hours
    let speedMph := speedKmh * 0.621371
    ⟨round1 speedKmh, round1 speedMph⟩

/-- A TypeScript `number` that may be `NaN` (floats have a `NaN` value that
`isNaN` detects; ℝ does not, so `NaN` is an explicit constructor). -/
inductive JsNumber where
  | nan : JsNumber
  | num (x : ℝ) : JsNumber

/-- `determineMotionState(speedKmh: number | null)`: `null`/`undefined`/`NaN`
give `'UNKNOWN'`; then `< 2` `'STATIONARY'`, `< 10` `'WALKING'`, else
`'DRIVING'`. -/
def determineMotionState (speedKmh : Option JsNumber) : String :=
  match speedKmh with
  | none => "UNKNOWN"
  | some .nan => "UNKNOWN"
  | some (.num x) =>
    if x < 2 then "STATIONARY"
    else if x < 10 then "WALKING"
    else "DRIVING"

/-- The record returned by `calculateLocationData`. -/
structure LocationCalculations where
  distanceKm : ℝ
  distanceMiles : ℝ
  speed : Speed
  bearing : ℝ
  compassDirection : String
  motionState : String

/-- `calculateLocationData(prevLat, prevLon, newLat, newLon, timeElapsed)`.
`prevLat`/`prevLon` are `number | null`; `timeElapsed` is `number | null`.
The guard `timeElapsed && timeElapsed > 0` is truthiness followed by a sign
test, which over ℝ is exactly `0 < t`. -/
def calculateLocationData (prevLat prevLon : Option ℝ) (newLat newLon : ℝ)
    (timeElapsed : Option ℝ) : LocationCalculations :=
  match prevLat, prevLon with
  | some plat, some plon =>
    let distanceKm := calculateDistance plat plon newLat newLon
    let distanceMiles := distanceKm * 0.621371
    let speed : Speed :=
      match timeElapsed with
      | some t => if 0 < t then calculateSpeed distanceKm t else ⟨0, 0⟩
      | none => ⟨0, 0⟩
    let bearing := calculateBearing plat plon newLat newLon
    let compassDirection := getCompassDirection bearing
    let motionState := determineMotionState (some (.num speed.kmh))
    { distanceKm := round2 distanceKm
      distanceMiles := round2 distanceMiles
      speed := speed
      bearing := bearing
      compassDirection := compassDirection
      motionState := motionState }
  | _, _ =>
    { distanceKm := 0
      distanceMiles := 0
      speed := ⟨0, 0⟩
      bearing := 0
      compassDirection := "N"
      motionState := "UNKNOWN" }

/-! ## src/src/app/api/locations/route.ts — the speed/heading/motion fragment -/

/-- The previous `location` row the POST handler loads (`db.location.findFirst`):
`latitude`/`longitude` are nullable columns, `timestampMs` is
`new Date(prevLocation.timestamp).getTime()`. -/
structure PrevRow where
  latitude : Option ℝ
  longitude : Option ℝ
  timestampMs : ℝ

/-- The values the POST handler computes in lines 69–94 and then stores:
`calculatedSpeedKmh`, `calculatedHeading`, `motionState`, `speedMph`, and the
`calculatedSpeedKmh || 0` actually written to the database. -/
structure PostCalc where
  calculatedSpeedKmh : Option ℝ
  calculatedHeading : Option ℝ
  motionState : String
  speedMph : Option ℝ
  storedSpeedKmh : ℝ

/-- Lines 69–94 of the POST handler plus the derived `speedMph` (line 94) and
stored `speedKmh` (line 106).  `prevLocation && prevLocation.latitude &&
prevLocation.longitude` is JavaScript truthiness: the row must exist and both
coordinates must be non-null and non-zero.  `timeElapsed` is the incoming
timestamp (or `Date.now()` when absent) minus the previous row's timestamp.
`speedMph = calculatedSpeedKmh ? calculatedSpeedKmh * 0.621371 : null` is
truthiness again: `undefined` and `0` both give `null`. -/
def postSpeedFragment (speedKmh heading : Option ℝ) (prev : Option PrevRow)
    (timestampMs : Option ℝ) (nowMs : ℝ) (latitude longitude : ℝ) : PostCalc :=
  let init : Option ℝ × Option ℝ × String :=
    (speedKmh, heading, determineMotionState (some (.num (speedKmh.getD 0))))
  let upd : Option ℝ × Option ℝ × String :=
    match prev with
    | some row =>
      match row.latitude, row.longitude with
      | some plat, some plon =>
        if plat ≠ 0 ∧ plon ≠ 0 then
          let timeElapsed := timestampMs.getD nowMs - row.timestampMs
          if 0 < timeElapsed then
            let c := calculateLocationData (some plat) (some plon)
              latitude longitude (some timeElapsed)
            (some c.speed.kmh, some c.bearing, c.motionState)
          else init
        else init
      | _, _ => init
    | none => init
  let speedMph : Option ℝ :=
    match upd.1 with
    | some v => if v = 0 then none else some (v * 0.621371)
    | none => none
  { calculatedSpeedKmh := upd.1
    calculatedHeading := upd.2.1
    motionState := upd.2.2
    speedMph := speedMph
    storedSpeedKmh := (upd.1).getD 0 }

end

/-! ## src/mini-services/gps-ws-service/index.ts

The service's mutable state is two `Map`s (`connectedDevices`,
`socketToUser`) and socket.io's room membership; they are modelled as
association lists keyed by strings (JavaScript `Map` updates in place and
appends new keys, which `setAssoc`/`addToSet` reproduce).  Each
`socket.on(...)` handler becomes a function from state and event payload to
the new state paired with the list of emissions it performs. -/

/-- `Map.set`: replace the value under the key, appending when absent. -/
def setAssoc {α : Type} : List (String × α) → String → α → List (String × α)
  | [], k, v => [(k, v)]
  | p :: t, k, v => if p.1 = k then (k, v) :: t else p :: setAssoc t k v

/-- `Map.get`. -/
def lookupAssoc {α : Type} : List (String × α) → String → Option α
  | [], _ => none
  | p :: t, k => if p.1 = k then some p.2 else lookupAssoc t k

/-- `Map.delete`. -/
def removeAssoc {α : Type} : List (String × α) → String → List (String × α)
  | [], _ => []
  | p :: t, k => if p.1 = k then t else p :: removeAssoc t k

/-- Add `sid` to the set under `key`, creating the entry when absent
(`if (!m.has(k)) m.set(k, new Set()); m.get(k)!.add(sid)` — and socket.io's
`socket.join`). -/
def addToSet : List (String × Finset String) → String → String → List (String × Finset String)
  | [], key, sid => [(key, {sid})]
  | p :: t, key, sid =>
    if p.1 = key then (key, insert sid p.2) :: t else p :: addToSet t key sid

/-- Remove `sid` from the set under `key` and drop the entry when its set
becomes empty (`sockets.delete(sid); if (sockets.size === 0) m.delete(k)` —
and socket.io's `socket.leave` with empty-room garbage collection). -/
def removeFromSet : List (String × Finset String) → String → String → List (String × Finset String)
  | [], _, _ => []
  | p :: t, key, sid =>
    if p.1 = key then
      (let s := p.2.erase sid; if s = ∅ then t else (key, s) :: t)
    else p :: removeFromSet t key sid

/-- Remove `sid` from every entry's set, dropping entries that become empty
(the `for (const [deviceId, sockets] of m.entries())` loop in the disconnect
handler, and socket.io's leave-all-rooms on disconnect). -/
def eraseEverywhere (entries : List (String × Finset String)) (sid : String) :
    List (String × Finset String) :=
  entries.filterMap fun p =>
    let s := p.2.erase sid
    if s = ∅ then none else some (p.1, s)

/-- The `{ userId, email }` object `verifyToken` yields on success. -/
structure WsUser where
  userId : String
  email : String
deriving DecidableEq

/-- The `location` object of a `location:update` event. -/
structure WsLocation where
  latitude : ℝ
  longitude : ℝ
  speedKmh : Option ℝ
  heading : Option ℝ
  motionState : Option String
  timestamp : Option String

/-- The service's state: `connectedDevices : Map<deviceId, Set<socketId>>`,
`socketToUser : Map<socketId, user>`, socket.io room membership, and a ghost
field `closed` recording the socket ids whose `disconnect` handler has run
(it influences no behaviour; it lets the membership invariant be stated). -/
structure WsState where
  connectedDevices : List (String × Finset String)
  socketToUser : List (String × WsUser)
  rooms : List (String × Finset String)
  closed : Finset String
deriving DecidableEq

/-- The state before any connection: empty maps, no rooms. -/
def initState : WsState :=
  { connectedDevices := [], socketToUser := [], rooms := [], closed := ∅ }

/-- One emission a handler performs: an `error` event to one socket, an
acknowledgement callback, an `authenticated` event, a broadcast of a
`location:update` to the sockets of a room, or `socket.disconnect()`. -/
inductive WsEmit where
  | errorMsg (sid msg : String)
  | callback (sid : String) (ok : Bool) (err : Option String)
  | authenticated (sid : String) (user : WsUser)
  | locationBroadcast (targets : Finset String) (deviceId : String)
      (location : WsLocation) (updatedAt : String)
  | disconnectSocket (sid : String)

/-- Members of a socket.io room (broadcast targets of `io.to(room)`). -/
def roomMembers (st : WsState) (room : String) : Finset String :=
  (lookupAssoc st.rooms room).getD ∅

/-- The `socket.on('authenticate')` handler.  Token verification is external
(`jwtVerify`); the handler receives its outcome as `verified`.  On failure it
emits an error and disconnects the socket (whose `disconnect` event then runs
as its own operation); on success it unconditionally stores the user under
the socket id — there is no already-authenticated check — answers the
callback, joins the user room, and emits `authenticated`. -/
def onAuthenticate (st : WsState) (sid : String) (verified : Option WsUser) :
    WsState × List WsEmit :=
  match verified with
  | none => (st, [.errorMsg sid ("Authentication failed"), .disconnectSocket sid])
  | some user =>
    ({ st with
        socketToUser := setAssoc st.socketToUser sid user
        rooms := addToSet st.rooms ("user:" ++ user.userId) sid },
      [.callback sid true none, .authenticated sid user])

/-- The `socket.on('device:register')` handler: requires authentication,
joins the `device:<id>` room and records the socket under the device. -/
def onDeviceRegister (st : WsState) (sid deviceId : String) :
    WsState × List WsEmit :=
  match lookupAssoc st.socketToUser sid with
  | none => (st, [.callback sid false (some ("Not authenticated"))])
  | some _ =>
    ({ st with
        rooms := addToSet st.rooms ("device:" ++ deviceId) sid
        connectedDevices := addToSet st.connectedDevices deviceId sid },
      [.callback sid true none])

/-- The `socket.on('location:update')` handler: unauthenticated senders get
an `error` event and nothing else happens; authenticated senders cause one
broadcast of the location — with its timestamp defaulted to the receipt time
— to every socket in the `device:<id>` room.  The state is unchanged. -/
def onLocationUpdate (st : WsState) (sid deviceId : String)
    (location : WsLocation) (now : String) : WsState × List WsEmit :=
  match lookupAssoc st.socketToUser sid with
  | none => (st, [.errorMsg sid ("Not authenticated")])
  | some _ =>
    (st,
      [.locationBroadcast (roomMembers st ("device:" ++ deviceId)) deviceId
        { location with timestamp := some (location.timestamp.getD now) } now])

/-- The `socket.on('device:unregister')` handler: requires authentication,
leaves the room and removes the socket from the device's set, dropping the
device entry when the set becomes empty. -/
def onDeviceUnregister (st : WsState) (sid deviceId : String) :
    WsState × List WsEmit :=
  match lookupAssoc st.socketToUser sid with
  | none => (st, [.callback sid false (some ("Not authenticated"))])
  | some _ =>
    ({ st with
        rooms := removeFromSet st.rooms ("device:" ++ deviceId) sid
        connectedDevices := removeFromSet st.connectedDevices deviceId sid },
      [.callback sid true none])

/-- The `socket.on('disconnect')` handler: the socket is removed from every
device's set (empty sets are deleted), socket.io removes it from all rooms,
and its user mapping is deleted.  The ghost `closed` field records that this
socket id is now dead. -/
def onDisconnect (st : WsState) (sid : String) : WsState × List WsEmit :=
  ({ connectedDevices := eraseEverywhere st.connectedDevices sid
     rooms := eraseEverywhere st.rooms sid
     socketToUser := removeAssoc st.socketToUser sid
     closed := insert sid st.closed }, [])

/-- One inbound operation on the service (the `location:update` event does
not change the state, so it is irrelevant to the registry invariant and the
operation list carries the state-changing events plus `connect`). -/
inductive WsOp where
  | connect (sid : String)
  | authenticate (sid : String) (verified : Option WsUser)
  | deviceRegister (sid deviceId : String)
  | deviceUnregister (sid deviceId : String)
  | disconnect (sid : String)
deriving DecidableEq

/-- The socket id an operation comes from. -/
def WsOp.sid : WsOp → String
  | .connect s => s
  | .authenticate s _ => s
  | .deviceRegister s _ => s
  | .deviceUnregister s _ => s
  | .disconnect s => s

/-- Apply one operation to the state (`io.on('connection')` itself only
registers handlers, so `connect` changes nothing). -/
def step (st : WsState) : WsOp → WsState
  | .connect _ => st
  | .authenticate sid v => (onAuthenticate st sid v).1
  | .deviceRegister sid d => (onDeviceRegister st sid d).1
  | .deviceUnregister sid d => (onDeviceUnregister st sid d).1
  | .disconnect sid => (onDisconnect st sid).1

/-- Run a list of operations. -/
def runOps (st : WsState) : List WsOp → WsState
  | [] => st
  | op :: rest => runOps (step st op) rest

/-- A well-formed trace relative to a set of already-closed socket ids: a
closed socket emits nothing further (the transport delivers no events from a
disconnected socket, and socket ids are unique per process lifetime). -/
def wfFrom (closed : Finset String) : List WsOp → Bool
  | [] => true
  | op :: rest =>
    if op.sid ∈ closed then false
    else
      wfFrom (match op with | .disconnect s => insert s closed | _ => closed) rest

/-! ## Helper lemmas -/

theorem floor_eval (r : ℝ) (k : ℤ) (h1 : (k : ℝ) ≤ r) (h2 : r < k + 1) : ⌊r⌋ = k :=
  Int.floor_eq_iff.mpr ⟨h1, h2⟩

theorem arctan_nonneg_of (q : ℝ) (h : 0 ≤ q) : 0 ≤ Real.arctan q := by
  have := Real.arctan_strictMono.monotone h
  rwa [Real.arctan_zero] at this

theorem arctan_nonpos_of (q : ℝ) (h : q ≤ 0) : Real.arctan q ≤ 0 := by
  have := Real.arctan_strictMono.monotone h
  rwa [Real.arctan_zero] at this

theorem atan2_nonneg (y x : ℝ) (hy : 0 ≤ y) : 0 ≤ atan2 y x := by
  unfold atan2
  have hpi := Real.pi_pos
  split_ifs with h1 h2 h3 h4
  · exact arctan_nonneg_of _ (div_nonneg hy h1.le)
  · have := Real.neg_pi_div_two_lt_arctan (y / x)
    linarith
  · linarith
  · linarith
  · exact le_refl 0

theorem atan2_le_pi (y x : ℝ) : atan2 y x ≤ Real.pi := by
  unfold atan2
  have hpi := Real.pi_pos
  split_ifs with h1 h2 h3 h4 h5
  · have := Real.arctan_lt_pi_div_two (y / x)
    linarith
  · have : y / x ≤ 0 := div_nonpos_iff.mpr (Or.inl ⟨h3, h2.le⟩)
    have := arctan_nonpos_of _ this
    linarith
  · have := Real.arctan_lt_pi_div_two (y / x)
    linarith
  · linarith
  · linarith
  · linarith

theorem neg_pi_lt_atan2 (y x : ℝ) : -Real.pi < atan2 y x := by
  unfold atan2
  have hpi := Real.pi_pos
  split_ifs with h1 h2 h3 h4 h5
  · have := Real.neg_pi_div_two_lt_arctan (y / x)
    linarith
  · have := Real.neg_pi_div_two_lt_arctan (y / x)
    linarith
  · have hq : 0 < y / x := by
      push_neg at h3
      exact div_pos_of_neg_of_neg h3 h2
    have h0 := Real.arctan_strictMono hq
    rw [Real.arctan_zero] at h0
    linarith
  · linarith
  · linarith
  · linarith

theorem jsMod_eval (a n : ℝ) (k : ℤ) (h0 : 0 ≤ a / n) (h1 : ⌊a / n⌋ = k) :
    jsMod a n = a - n * k := by
  unfold jsMod jsTrunc
  rw [if_pos h0, h1]

theorem jsMod_360_bounds (a : ℝ) (h : 0 ≤ a) :
    0 ≤ jsMod a 360 ∧ jsMod a 360 < 360 := by
  unfold jsMod jsTrunc
  have h0 : 0 ≤ a / 360 := by positivity
  rw [if_pos h0]
  have h1 : (⌊a / 360⌋ : ℝ) ≤ a / 360 := Int.floor_le _
  have h2 : a / 360 < ⌊a / 360⌋ + 1 := Int.lt_floor_add_one _
  constructor
  · nlinarith
  · nlinarith

theorem toDegrees_gt_neg180 (v : ℝ) (h : -Real.pi < v) : -180 < toDegrees v := by
  unfold toDegrees
  have hpi := Real.pi_pos
  have hq : 0 < 180 / Real.pi := by positivity
  have := mul_lt_mul_of_pos_right h hq
  have he : -Real.pi * (180 / Real.pi) = -180 := by
    field_simp
    ring
  linarith [he ▸ this]

theorem calculateBearing_bounds (lat1 lon1 lat2 lon2 : ℝ) :
    0 ≤ calculateBearing lat1 lon1 lat2 lon2 ∧
      calculateBearing lat1 lon1 lat2 lon2 < 360 := by
  simp only [calculateBearing]
  apply jsMod_360_bounds
  have := toDegrees_gt_neg180 _ (neg_pi_lt_atan2
    (Real.sin (toRadians (lon2 - lon1)) * Real.cos (toRadians lat2))
    (Real.cos (toRadians lat1) * Real.sin (toRadians lat2) -
      Real.sin (toRadians lat1) * Real.cos (toRadians lat2) *
        Real.cos (toRadians (lon2 - lon1))))
  linarith

theorem calculateDistance_nonneg (lat1 lon1 lat2 lon2 : ℝ) :
    0 ≤ calculateDistance lat1 lon1 lat2 lon2 := by
  simp only [calculateDistance, EARTH_RADIUS_KM]
  have h := atan2_nonneg
    (Real.sqrt (Real.sin (toRadians (lat2 - lat1) / 2) *
        Real.sin (toRadians (lat2 - lat1) / 2) +
      Real.cos (toRadians lat1) * Real.cos (toRadians lat2) *
        Real.sin (toRadians (lon2 - lon1) / 2) *
        Real.sin (toRadians (lon2 - lon1) / 2)))
    (Real.sqrt (1 - (Real.sin (toRadians (lat2 - lat1) / 2) *
        Real.sin (toRadians (lat2 - lat1) / 2) +
      Real.cos (toRadians lat1) * Real.cos (toRadians lat2) *
        Real.sin (toRadians (lon2 - lon1) / 2) *
        Real.sin (toRadians (lon2 - lon1) / 2))))
    (Real.sqrt_nonneg _)
  linarith

theorem calculateDistance_symm (lat1 lon1 lat2 lon2 : ℝ) :
    calculateDistance lat1 lon1 lat2 lon2 = calculateDistance lat2 lon2 lat1 lon1 := by
  simp only [calculateDistance]
  have e1 : toRadians (lat1 - lat2) = -(toRadians (lat2 - lat1)) := by
    simp only [toRadians]; ring
  have e2 : toRadians (lon1 - lon2) = -(toRadians (lon2 - lon1)) := by
    simp only [toRadians]; ring
  rw [e1, e2]
  simp only [neg_div, Real.sin_neg]
  ring_nf

theorem calculateBearing_east : calculateBearing 0 0 0 90 = 90 := by
  have e1 : atan2 1 0 = Real.pi / 2 := by norm_num [atan2]
  simp only [calculateBearing, toRadians, toDegrees]
  norm_num [Real.sin_zero, Real.cos_zero]
  rw [show (90 : ℝ) * (Real.pi / 180) = Real.pi / 2 by ring, Real.sin_pi_div_two, e1]
  rw [show Real.pi / 2 * (180 / Real.pi) = 90 by field_simp; ring]
  rw [show (90 : ℝ) + 360 = 450 by norm_num]
  rw [jsMod_eval 450 360 1 (by norm_num) (floor_eval _ 1 (by norm_num) (by norm_num))]
  norm_num

theorem calculateBearing_west : calculateBearing 0 90 0 0 = 270 := by
  have e1 : atan2 (-1) 0 = -(Real.pi / 2) := by norm_num [atan2]
  simp only [calculateBearing, toRadians, toDegrees]
  norm_num [Real.sin_zero, Real.cos_zero]
  rw [show (90 : ℝ) * (Real.pi / 180) = Real.pi / 2 by ring, Real.sin_pi_div_two, e1]
  rw [show -(Real.pi / 2) * (180 / Real.pi) = -90 by field_simp; ring]
  rw [show (-90 : ℝ) + 360 = 270 by norm_num]
  rw [jsMod_eval 270 360 0 (by norm_num) (floor_eval _ 0 (by norm_num) (by norm_num))]
  norm_num


theorem round1_zero : round1 0 = 0 := by
  unfold round1 jsRound
  rw [show (0 : ℝ) * 10 + 1 / 2 = 1 / 2 by norm_num,
    floor_eval _ 0 (by norm_num) (by norm_num)]
  norm_num

theorem calculateDistance_self (la lo : ℝ) : calculateDistance la lo la lo = 0 := by
  simp only [calculateDistance, toRadians, sub_self, zero_mul, zero_div, Real.sin_zero,
    mul_zero, add_zero, Real.sqrt_zero, sub_zero, Real.sqrt_one]
  norm_num [atan2, Real.arctan_zero]

theorem calculateSpeed_of_ne (d t : ℝ) (h : t ≠ 0) :
    calculateSpeed d t =
      ⟨round1 (d / (t / (1000 * 60 * 60))),
        round1 (d / (t / (1000 * 60 * 60)) * 0.621371)⟩ := by
  simp only [calculateSpeed, if_neg h]

theorem calculateSpeed_kmh_multiple (d t : ℝ) :
    ∃ n : ℤ, (calculateSpeed d t).kmh = n / 10 := by
  unfold calculateSpeed
  split_ifs
  · exact ⟨0, by norm_num⟩
  · exact ⟨jsRound (d / (t / (1000 * 60 * 60)) * 10), rfl⟩

theorem calculateSpeed_mph_multiple (d t : ℝ) :
    ∃ n : ℤ, (calculateSpeed d t).mph = n / 10 := by
  unfold calculateSpeed
  split_ifs
  · exact ⟨0, by norm_num⟩
  · exact ⟨jsRound (d / (t / (1000 * 60 * 60)) * 0.621371 * 10), rfl⟩

theorem cld_speed_pos (plat plon nlat nlon t : ℝ) (h : 0 < t) :
    (calculateLocationData (some plat) (some plon) nlat nlon (some t)).speed =
      calculateSpeed (calculateDistance plat plon nlat nlon) t := by
  simp only [calculateLocationData]
  rw [if_pos h]

/-! ## Claim theorems -/

/-- C8: for every pair of coordinates with latitudes in [-90, 90] and
longitudes in [-180, 180], `calculateDistance` returns a non-negative value
and `calculateBearing` returns a value in [0, 360). -/
theorem c8_distance_nonneg_bearing_in_range (lat1 lon1 lat2 lon2 : ℝ)
    (hlat1l : -90 ≤ lat1) (hlat1u : lat1 ≤ 90)
    (hlat2l : -90 ≤ lat2) (hlat2u : lat2 ≤ 90)
    (hlon1l : -180 ≤ lon1) (hlon1u : lon1 ≤ 180)
    (hlon2l : -180 ≤ lon2) (hlon2u : lon2 ≤ 180) :
    0 ≤ calculateDistance lat1 lon1 lat2 lon2 ∧
      0 ≤ calculateBearing lat1 lon1 lat2 lon2 ∧
      calculateBearing lat1 lon1 lat2 lon2 < 360 :=
  ⟨calculateDistance_nonneg lat1 lon1 lat2 lon2,
    (calculateBearing_bounds lat1 lon1 lat2 lon2).1,
    (calculateBearing_bounds lat1 lon1 lat2 lon2).2⟩

/-- C8 witness: the bounds at the concrete pair (40, -74) → (41, -73). -/
theorem c8_witness :
    0 ≤ calculateDistance 40 (-74) 41 (-73) ∧
      0 ≤ calculateBearing 40 (-74) 41 (-73) ∧
      calculateBearing 40 (-74) 41 (-73) < 360 :=
  c8_distance_nonneg_bearing_in_range 40 (-74) 41 (-73)
    (by norm_num) (by norm_num) (by norm_num) (by norm_num)
    (by norm_num) (by norm_num) (by norm_num) (by norm_num)

/-- C4: motion classification is a pure function of the speed value: below
2 km/h it is STATIONARY, in [2, 10) it is WALKING, at or above 10 it is
DRIVING (so exactly 10 is DRIVING and exactly 2 is WALKING), and an absent
(null/undefined) or NaN speed is UNKNOWN. -/
theorem c4_motion_state_classification :
    (∀ x : ℝ,
      (determineMotionState (some (.num x)) = "STATIONARY" ↔ x < 2) ∧
      (determineMotionState (some (.num x)) = "WALKING" ↔ 2 ≤ x ∧ x < 10) ∧
      (determineMotionState (some (.num x)) = "DRIVING" ↔ 10 ≤ x)) ∧
    determineMotionState (some (.num 2)) = "WALKING" ∧
    determineMotionState (some (.num 10)) = "DRIVING" ∧
    determineMotionState none = "UNKNOWN" ∧
    determineMotionState (some .nan) = "UNKNOWN" := by
  have base : ∀ x : ℝ, determineMotionState (some (.num x)) =
      if x < 2 then "STATIONARY" else if x < 10 then "WALKING" else "DRIVING" := by
    intro x
    simp only [determineMotionState]
  refine ⟨fun x => ⟨?_, ?_, ?_⟩, ?_, ?_, rfl, rfl⟩
  · rw [base]
    split_ifs with h1 h2
    · exact iff_of_true rfl h1
    · exact iff_of_false (by decide) h1
    · exact iff_of_false (by decide) h1
  · rw [base]
    split_ifs with h1 h2
    · exact iff_of_false (by decide) (by intro h; linarith [h.1])
    · exact iff_of_true rfl ⟨by linarith, h2⟩
    · exact iff_of_false (by decide) (by intro h; exact h2 h.2)
  · rw [base]
    split_ifs with h1 h2
    · exact iff_of_false (by decide) (by intro h; linarith)
    · exact iff_of_false (by decide) (by intro h; linarith)
    · exact iff_of_true rfl (by linarith)
  · rw [base]
    norm_num
  · rw [base]
    norm_num

/-- C9: for every pair of valid coordinates the haversine distance is
symmetric in its two endpoints, while the bearings of the two directions of
a pair can differ: from (0,0) to (0,90) the bearing is 90 (due east) but
from (0,90) to (0,0) it is 270 (due west). -/
theorem c9_distance_symm_bearing_not (lat1 lon1 lat2 lon2 : ℝ)
    (hlat1l : -90 ≤ lat1) (hlat1u : lat1 ≤ 90)
    (hlat2l : -90 ≤ lat2) (hlat2u : lat2 ≤ 90)
    (hlon1l : -180 ≤ lon1) (hlon1u : lon1 ≤ 180)
    (hlon2l : -180 ≤ lon2) (hlon2u : lon2 ≤ 180) :
    calculateDistance lat1 lon1 lat2 lon2 = calculateDistance lat2 lon2 lat1 lon1 ∧
      ∃ a b c d : ℝ, calculateBearing a b c d ≠ calculateBearing c d a b := by
  refine ⟨calculateDistance_symm lat1 lon1 lat2 lon2, 0, 0, 0, 90, ?_⟩
  rw [calculateBearing_east, calculateBearing_west]
  norm_num

/-- C9 witness: the symmetry statement instantiated at (40, -74), (41, -73). -/
theorem c9_witness :
    calculateDistance 40 (-74) 41 (-73) = calculateDistance 41 (-73) 40 (-74) ∧
      ∃ a b c d : ℝ, calculateBearing a b c d ≠ calculateBearing c d a b :=
  c9_distance_symm_bearing_not 40 (-74) 41 (-73)
    (by norm_num) (by norm_num) (by norm_num) (by norm_num)
    (by norm_num) (by norm_num) (by norm_num) (by norm_num)


/-- C10: with a non-null prior position, `calculateLocationData` returns
`distanceKm` and `distanceMiles` rounded to two decimal places (each a
multiple of 0.01), `speed.kmh` and `speed.mph` rounded to one decimal place
(each a multiple of 0.1), and applies the motion classification to the
rounded `speed.kmh`, not to the exact quotient. -/
theorem c10_rounded_outputs (plat plon nlat nlon : ℝ) (te : Option ℝ) :
    (∃ n : ℤ,
      (calculateLocationData (some plat) (some plon) nlat nlon te).distanceKm = n / 100) ∧
    (∃ n : ℤ,
      (calculateLocationData (some plat) (some plon) nlat nlon te).distanceMiles = n / 100) ∧
    (∃ n : ℤ,
      (calculateLocationData (some plat) (some plon) nlat nlon te).speed.kmh = n / 10) ∧
    (∃ n : ℤ,
      (calculateLocationData (some plat) (some plon) nlat nlon te).speed.mph = n / 10) ∧
    (calculateLocationData (some plat) (some plon) nlat nlon te).distanceKm =
      round2 (calculateDistance plat plon nlat nlon) ∧
    (calculateLocationData (some plat) (some plon) nlat nlon te).distanceMiles =
      round2 (calculateDistance plat plon nlat nlon * 0.621371) ∧
    (calculateLocationData (some plat) (some plon) nlat nlon te).motionState =
      determineMotionState (some (.num
        (calculateLocationData (some plat) (some plon) nlat nlon te).speed.kmh)) ∧
    (∀ t : ℝ, te = some t → 0 < t →
      (calculateLocationData (some plat) (some plon) nlat nlon te).speed.kmh =
        round1 (calculateDistance plat plon nlat nlon / (t / (1000 * 60 * 60)))) := by
  refine ⟨⟨jsRound (calculateDistance plat plon nlat nlon * 100), rfl⟩,
    ⟨jsRound (calculateDistance plat plon nlat nlon * 0.621371 * 100), rfl⟩,
    ?_, ?_, rfl, rfl, rfl, ?_⟩
  · rcases te with _ | t
    · exact ⟨0, by norm_num [calculateLocationData]⟩
    · by_cases h : 0 < t
      · rw [cld_speed_pos plat plon nlat nlon t h]
        exact calculateSpeed_kmh_multiple _ _
      · refine ⟨0, ?_⟩
        simp only [calculateLocationData]
        rw [if_neg h]
        norm_num
  · rcases te with _ | t
    · exact ⟨0, by norm_num [calculateLocationData]⟩
    · by_cases h : 0 < t
      · rw [cld_speed_pos plat plon nlat nlon t h]
        exact calculateSpeed_mph_multiple _ _
      · refine ⟨0, ?_⟩
        simp only [calculateLocationData]
        rw [if_neg h]
        norm_num
  · intro t ht hpos
    subst ht
    rw [cld_speed_pos plat plon nlat nlon t hpos,
      calculateSpeed_of_ne _ _ (ne_of_gt hpos)]


/-- C3 (amended): in the POST handler the caller-supplied `speedKmh` is used
as-is only when there is no usable prior location or the elapsed time is not
positive; when a prior row with truthy (non-null, non-zero) coordinates
exists and the elapsed time is positive, the speed is recomputed as
`distanceKm / (elapsedMs / 3,600,000)` rounded to one decimal place,
overriding any supplied value.  The stored mph equals the final km/h value
times 0.621371 when that value is non-zero, and is null when it is absent or
zero; inside `calculateSpeed` the mph field is the separately rounded
conversion of the unrounded km/h, not the returned km/h times 0.621371. -/
theorem c3_speed_derivation (speedKmh heading : Option ℝ) (prev : Option PrevRow)
    (timestampMs : Option ℝ) (nowMs latitude longitude : ℝ) :
    (∀ row plat plon, prev = some row → row.latitude = some plat →
      row.longitude = some plon → plat ≠ 0 → plon ≠ 0 →
      0 < timestampMs.getD nowMs - row.timestampMs →
      (postSpeedFragment speedKmh heading prev timestampMs nowMs
          latitude longitude).calculatedSpeedKmh =
        some (round1 (calculateDistance plat plon latitude longitude /
          ((timestampMs.getD nowMs - row.timestampMs) / (1000 * 60 * 60))))) ∧
    (prev = none →
      (postSpeedFragment speedKmh heading prev timestampMs nowMs
          latitude longitude).calculatedSpeedKmh = speedKmh) ∧
    (∀ row, prev = some row → timestampMs.getD nowMs - row.timestampMs ≤ 0 →
      (postSpeedFragment speedKmh heading prev timestampMs nowMs
          latitude longitude).calculatedSpeedKmh = speedKmh) ∧
    (∀ v : ℝ, (postSpeedFragment speedKmh heading prev timestampMs nowMs
          latitude longitude).calculatedSpeedKmh = some v → v ≠ 0 →
      (postSpeedFragment speedKmh heading prev timestampMs nowMs
          latitude longitude).speedMph = some (v * 0.621371)) ∧
    ((postSpeedFragment speedKmh heading prev timestampMs nowMs
          latitude longitude).calculatedSpeedKmh = none ∨
      (postSpeedFragment speedKmh heading prev timestampMs nowMs
          latitude longitude).calculatedSpeedKmh = some 0 →
      (postSpeedFragment speedKmh heading prev timestampMs nowMs
          latitude longitude).speedMph = none) ∧
    (∀ d t : ℝ, t ≠ 0 →
      (calculateSpeed d t).kmh = round1 (d / (t / (1000 * 60 * 60))) ∧
      (calculateSpeed d t).mph =
        round1 (d / (t / (1000 * 60 * 60)) * 0.621371)) := by
  have hmph : (postSpeedFragment speedKmh heading prev timestampMs nowMs
      latitude longitude).speedMph =
    (match (postSpeedFragment speedKmh heading prev timestampMs nowMs
        latitude longitude).calculatedSpeedKmh with
      | some v => if v = 0 then none else some (v * 0.621371)
      | none => none) := rfl
  refine ⟨?_, ?_, ?_, ?_, ?_, ?_⟩
  · intro row plat plon hprev hlat hlon hplat hplon helapsed
    subst hprev
    simp only [postSpeedFragment, hlat, hlon]
    rw [if_pos ⟨hplat, hplon⟩, if_pos helapsed]
    rw [cld_speed_pos _ _ _ _ _ helapsed,
      calculateSpeed_of_ne _ _ (ne_of_gt helapsed)]
  · intro hprev
    subst hprev
    rfl
  · intro row hprev helapsed
    subst hprev
    obtain ⟨rlat, rlon, rts⟩ := row
    rcases rlat with _ | plat
    · rfl
    · rcases rlon with _ | plon
      · rfl
      · simp only [postSpeedFragment]
        by_cases hc : plat ≠ 0 ∧ plon ≠ 0
        · rw [if_pos hc, if_neg (not_lt.mpr helapsed)]
        · rw [if_neg hc]
  · intro v hv hvne
    rw [hmph, hv]
    simp only [if_neg hvne]
  · intro h
    rcases h with h | h
    · rw [hmph, h]
    · rw [hmph, h]
      norm_num
  · intro d t ht
    rw [calculateSpeed_of_ne d t ht]
    exact ⟨rfl, rfl⟩

/-- C3 counterexample: with supplied `speedKmh = 5`, a prior row at the same
coordinates (40, -74) recorded at time 0, and a new fix at the same
coordinates with timestamp 1000 ms, the handler recomputes the speed and
keeps 0, discarding the supplied 5 (so a supplied speed is not used as-is);
and `calculateSpeed(1 km, 3,600,000 ms)` returns `kmh = 1` but `mph = 0.6`,
which differs from `1 × 0.621371` (so mph is not km/h times 0.621371). -/
theorem c3_counterexample :
    (postSpeedFragment (some 5) none (some ⟨some 40, some (-74), 0⟩)
        (some 1000) 0 40 (-74)).calculatedSpeedKmh = some 0 ∧
    some (0 : ℝ) ≠ some (5 : ℝ) ∧
    (calculateSpeed 1 3600000).kmh = 1 ∧
    (calculateSpeed 1 3600000).mph = 0.6 ∧
    (0.6 : ℝ) ≠ 1 * 0.621371 := by
  refine ⟨?_, by norm_num, ?_, ?_, by norm_num⟩
  · have helapsed : (0 : ℝ) < Option.getD (some (1000 : ℝ)) 0 - 0 := by
      norm_num [Option.getD]
    simp only [postSpeedFragment]
    rw [if_pos ⟨(by norm_num : (40 : ℝ) ≠ 0), (by norm_num : (-74 : ℝ) ≠ 0)⟩]
    rw [if_pos helapsed]
    rw [cld_speed_pos _ _ _ _ _ helapsed]
    rw [calculateDistance_self]
    rw [calculateSpeed_of_ne _ _ (ne_of_gt helapsed)]
    rw [zero_div, round1_zero]
  · rw [calculateSpeed_of_ne 1 3600000 (by norm_num)]
    show round1 (1 / ((3600000 : ℝ) / (1000 * 60 * 60))) = 1
    rw [show (1 : ℝ) / ((3600000 : ℝ) / (1000 * 60 * 60)) = 1 by norm_num]
    unfold round1 jsRound
    rw [show (1 : ℝ) * 10 + 1 / 2 = 21 / 2 by norm_num,
      floor_eval _ 10 (by norm_num) (by norm_num)]
    norm_num
  · rw [calculateSpeed_of_ne 1 3600000 (by norm_num)]
    show round1 (1 / ((3600000 : ℝ) / (1000 * 60 * 60)) * 0.621371) = 0.6
    rw [show (1 : ℝ) / ((3600000 : ℝ) / (1000 * 60 * 60)) * 0.621371 = 0.621371 by norm_num]
    unfold round1 jsRound
    rw [show (0.621371 : ℝ) * 10 + 1 / 2 = 6.71371 by norm_num,
      floor_eval _ 6 (by norm_num) (by norm_num)]
    norm_num


/-- Broadcast target set of a handler's emission list (the sockets
`io.to(room).emit` hands the event to); empty when no broadcast happened. -/
def broadcastTargets (emits : List WsEmit) : Finset String :=
  match emits with
  | [WsEmit.locationBroadcast targets _ _ _] => targets
  | _ => ∅

theorem lookupAssoc_setAssoc_self {α : Type} (l : List (String × α)) (k : String) (v : α) :
    lookupAssoc (setAssoc l k v) k = some v := by
  induction l with
  | nil => simp [setAssoc, lookupAssoc]
  | cons p t ih =>
    simp only [setAssoc]
    by_cases hp : p.1 = k
    · rw [if_pos hp]
      simp [lookupAssoc]
    · rw [if_neg hp]
      simp only [lookupAssoc]
      rw [if_neg hp]
      exact ih

/-- C1 counterexample: on a connection already authenticated as `u1`, a
second `authenticate` with a valid token for `u2` is not rejected — there is
no AlreadyAuthenticated check — it answers the success callback, emits
`authenticated`, and rebinds the connection's identity to `u2`. -/
theorem c1_counterexample :
    lookupAssoc ((onAuthenticate
        { connectedDevices := [], socketToUser := [("A", ⟨"u1", "a@x"⟩)],
          rooms := [("user:u1", {"A"})], closed := ∅ }
        "A" (some ⟨"u2", "b@x"⟩)).1).socketToUser "A" = some ⟨"u2", "b@x"⟩ ∧
    (⟨"u2", "b@x"⟩ : WsUser) ≠ ⟨"u1", "a@x"⟩ ∧
    (onAuthenticate
        { connectedDevices := [], socketToUser := [("A", ⟨"u1", "a@x"⟩)],
          rooms := [("user:u1", {"A"})], closed := ∅ }
        "A" (some ⟨"u2", "b@x"⟩)).2 =
      [.callback "A" true none, .authenticated "A" ⟨"u2", "b@x"⟩] := by
  refine ⟨by decide, by decide, rfl⟩

/-- C1 (amended): a second `authenticate` call with a valid token on an
already-authenticated connection is not rejected with AlreadyAuthenticated:
it succeeds again (success callback and `authenticated` event) and rebinds
the connection's identity to the newly verified one — the binding is
overwritten on every successful authenticate, not set exactly once. -/
theorem c1_reauthentication_rebinds (st : WsState) (sid : String) (u u' : WsUser)
    (h : lookupAssoc st.socketToUser sid = some u') :
    lookupAssoc ((onAuthenticate st sid (some u)).1).socketToUser sid = some u ∧
    (onAuthenticate st sid (some u)).2 =
      [.callback sid true none, .authenticated sid u] := by
  refine ⟨?_, rfl⟩
  simp only [onAuthenticate]
  exact lookupAssoc_setAssoc_self st.socketToUser sid u

/-- C1 witness: the rebinding theorem applied to a connection authenticated
as `u1` receiving a second valid authenticate for `u2`. -/
theorem c1_witness :
    lookupAssoc ((onAuthenticate
        { connectedDevices := [], socketToUser := [("A", ⟨"u1", "a@x"⟩)],
          rooms := [("user:u1", {"A"})], closed := ∅ }
        "A" (some ⟨"u2", "b@x"⟩)).1).socketToUser "A" = some ⟨"u2", "b@x"⟩ ∧
    (onAuthenticate
        { connectedDevices := [], socketToUser := [("A", ⟨"u1", "a@x"⟩)],
          rooms := [("user:u1", {"A"})], closed := ∅ }
        "A" (some ⟨"u2", "b@x"⟩)).2 =
      [.callback "A" true none, .authenticated "A" ⟨"u2", "b@x"⟩] :=
  c1_reauthentication_rebinds
    { connectedDevices := [], socketToUser := [("A", ⟨"u1", "a@x"⟩)],
      rooms := [("user:u1", {"A"})], closed := ∅ }
    "A" ⟨"u2", "b@x"⟩ ⟨"u1", "a@x"⟩ (by decide)

/-- C5: a `location:update` from a connection with no bound identity is
answered with a "Not authenticated" error to that connection only; the state
(registry and everything else) is unchanged and no broadcast is emitted. -/
theorem c5_unauthenticated_publish (st : WsState) (sid deviceId : String)
    (loc : WsLocation) (now : String)
    (h : lookupAssoc st.socketToUser sid = none) :
    (onLocationUpdate st sid deviceId loc now).1 = st ∧
    (onLocationUpdate st sid deviceId loc now).2 =
      [.errorMsg sid ("Not authenticated")] := by
  simp [onLocationUpdate, h]

/-- C5 witness: an unauthenticated publish on the initial state. -/
theorem c5_witness :
    (onLocationUpdate initState "A" "d1" ⟨0, 0, none, none, none, none⟩ "T").1 =
      initState ∧
    (onLocationUpdate initState "A" "d1" ⟨0, 0, none, none, none, none⟩ "T").2 =
      [.errorMsg "A" ("Not authenticated")] :=
  c5_unauthenticated_publish initState "A" "d1" ⟨0, 0, none, none, none, none⟩ "T" rfl


theorem broadcastTargets_authenticated (st : WsState) (sid deviceId : String)
    (loc : WsLocation) (now : String) (u : WsUser)
    (h : lookupAssoc st.socketToUser sid = some u) :
    broadcastTargets (onLocationUpdate st sid deviceId loc now).2 =
      roomMembers st ("device:" ++ deviceId) := by
  simp [onLocationUpdate, h, broadcastTargets]

/-- C6: an authenticated publish for a device is handed to exactly the
sockets currently in that device's room: with A and B in the room of `d1`
and C only in the room of `d2` (in particular not in the room of `d1`), a
publish of `d1` by A delivers to A (the sender is included, no
self-filtering) and to B, and not to C. -/
theorem c6_broadcast_fanout (st : WsState) (sA sB sC d1 d2 : String)
    (uA : WsUser) (loc : WsLocation) (now : String)
    (hauth : lookupAssoc st.socketToUser sA = some uA)
    (hA : sA ∈ roomMembers st ("device:" ++ d1))
    (hB : sB ∈ roomMembers st ("device:" ++ d1))
    (hC2 : sC ∈ roomMembers st ("device:" ++ d2))
    (hC : sC ∉ roomMembers st ("device:" ++ d1)) :
    sA ∈ broadcastTargets (onLocationUpdate st sA d1 loc now).2 ∧
    sB ∈ broadcastTargets (onLocationUpdate st sA d1 loc now).2 ∧
    sC ∉ broadcastTargets (onLocationUpdate st sA d1 loc now).2 := by
  rw [broadcastTargets_authenticated st sA d1 loc now uA hauth]
  exact ⟨hA, hB, hC⟩

/-- C6 witness: three connections authenticate; A and B register device
`d1`, C registers device `d2`; a publish of `d1` by A targets A and B and
not C. -/
theorem c6_witness :
    "A" ∈ broadcastTargets (onLocationUpdate
      (runOps initState
        [.authenticate "A" (some ⟨"uA", "a"⟩), .authenticate "B" (some ⟨"uB", "b"⟩),
         .authenticate "C" (some ⟨"uC", "c"⟩), .deviceRegister "A" "d1",
         .deviceRegister "B" "d1", .deviceRegister "C" "d2"])
      "A" "d1" ⟨0, 0, none, none, none, none⟩ "T").2 ∧
    "B" ∈ broadcastTargets (onLocationUpdate
      (runOps initState
        [.authenticate "A" (some ⟨"uA", "a"⟩), .authenticate "B" (some ⟨"uB", "b"⟩),
         .authenticate "C" (some ⟨"uC", "c"⟩), .deviceRegister "A" "d1",
         .deviceRegister "B" "d1", .deviceRegister "C" "d2"])
      "A" "d1" ⟨0, 0, none, none, none, none⟩ "T").2 ∧
    "C" ∉ broadcastTargets (onLocationUpdate
      (runOps initState
        [.authenticate "A" (some ⟨"uA", "a"⟩), .authenticate "B" (some ⟨"uB", "b"⟩),
         .authenticate "C" (some ⟨"uC", "c"⟩), .deviceRegister "A" "d1",
         .deviceRegister "B" "d1", .deviceRegister "C" "d2"])
      "A" "d1" ⟨0, 0, none, none, none, none⟩ "T").2 :=
  c6_broadcast_fanout
    (runOps initState
      [.authenticate "A" (some ⟨"uA", "a"⟩), .authenticate "B" (some ⟨"uB", "b"⟩),
       .authenticate "C" (some ⟨"uC", "c"⟩), .deviceRegister "A" "d1",
       .deviceRegister "B" "d1", .deviceRegister "C" "d2"])
    "A" "B" "C" "d1" "d2" ⟨"uA", "a"⟩ ⟨0, 0, none, none, none, none⟩ "T"
    (by decide) (by decide) (by decide) (by decide) (by decide)

/-- C2 counterexample: with sender S authenticated and socket A in the room
of device `d1`, a publish of a raw fix at (40, -74) leaves the state exactly
as it was — the service keeps no prior-fix cache, so nothing is computed or
stored — and the delivered event is the raw fix with only its timestamp
defaulted: its `motionState` field is absent, whereas the Calculator's
EnrichedFix for a cache miss carries motionState "UNKNOWN", so the delivered
event is not the Calculator's EnrichedFix. -/
theorem c2_counterexample :
    (onLocationUpdate
        { connectedDevices := [("d1", {"A"})], socketToUser := [("S", ⟨"u1", "e"⟩)],
          rooms := [("device:d1", {"A"})], closed := ∅ }
        "S" "d1" ⟨40, -74, none, none, none, none⟩ "T0").1 =
      { connectedDevices := [("d1", {"A"})], socketToUser := [("S", ⟨"u1", "e"⟩)],
        rooms := [("device:d1", {"A"})], closed := ∅ } ∧
    (onLocationUpdate
        { connectedDevices := [("d1", {"A"})], socketToUser := [("S", ⟨"u1", "e"⟩)],
          rooms := [("device:d1", {"A"})], closed := ∅ }
        "S" "d1" ⟨40, -74, none, none, none, none⟩ "T0").2 =
      [.locationBroadcast {"A"} "d1" ⟨40, -74, none, none, none, some "T0"⟩ "T0"] ∧
    (⟨40, -74, none, none, none, some "T0"⟩ : WsLocation).motionState = none ∧
    (calculateLocationData none none 40 (-74) none).motionState = "UNKNOWN" ∧
    (⟨40, -74, none, none, none, some "T0"⟩ : WsLocation).motionState ≠
      some (calculateLocationData none none 40 (-74) none).motionState := by
  refine ⟨rfl, ?_, rfl, rfl, ?_⟩
  · simp only [onLocationUpdate, lookupAssoc, roomMembers]
    norm_num
    rw [if_pos (show ("device:d1" : String) = "device:" ++ "d1" by decide)]
    rfl
  · intro h
    rw [show (calculateLocationData none none 40 (-74) none).motionState =
      "UNKNOWN" from rfl] at h
    cases h

/-- C2 (amended): for every publish by an authenticated sender, the event
delivered to the device's room members is the raw fix unchanged except that
a missing timestamp is defaulted to the receipt time; the service invokes no
Calculator and keeps no prior-fix cache, so the state after the publish is
exactly the state before it; with zero current room members the broadcast
target set is empty (zero sends) and the state is likewise unchanged. -/
theorem c2_publish_passthrough (st : WsState) (sid deviceId : String)
    (loc : WsLocation) (now : String) (u : WsUser)
    (h : lookupAssoc st.socketToUser sid = some u) :
    (onLocationUpdate st sid deviceId loc now).1 = st ∧
    (onLocationUpdate st sid deviceId loc now).2 =
      [.locationBroadcast (roomMembers st ("device:" ++ deviceId)) deviceId
        { loc with timestamp := some (loc.timestamp.getD now) } now] ∧
    (roomMembers st ("device:" ++ deviceId) = ∅ →
      broadcastTargets (onLocationUpdate st sid deviceId loc now).2 = ∅) := by
  refine ⟨?_, ?_, ?_⟩
  · simp [onLocationUpdate, h]
  · simp [onLocationUpdate, h]
  · intro hempty
    rw [broadcastTargets_authenticated st sid deviceId loc now u h]
    exact hempty

/-- C2 witness: the pass-through theorem applied to the counterexample's
concrete state and fix. -/
theorem c2_witness :
    (onLocationUpdate
        { connectedDevices := [("d1", {"A"})], socketToUser := [("S", ⟨"u1", "e"⟩)],
          rooms := [("device:d1", {"A"})], closed := ∅ }
        "S" "d1" ⟨40, -74, none, none, none, none⟩ "T0").1 =
      { connectedDevices := [("d1", {"A"})], socketToUser := [("S", ⟨"u1", "e"⟩)],
        rooms := [("device:d1", {"A"})], closed := ∅ } ∧
    (onLocationUpdate
        { connectedDevices := [("d1", {"A"})], socketToUser := [("S", ⟨"u1", "e"⟩)],
          rooms := [("device:d1", {"A"})], closed := ∅ }
        "S" "d1" ⟨40, -74, none, none, none, none⟩ "T0").2 =
      [.locationBroadcast
        (roomMembers
          { connectedDevices := [("d1", {"A"})], socketToUser := [("S", ⟨"u1", "e"⟩)],
            rooms := [("device:d1", {"A"})], closed := ∅ } ("device:" ++ "d1")) "d1"
        ⟨40, -74, none, none, none, some "T0"⟩ "T0"] ∧
    (roomMembers
        { connectedDevices := [("d1", {"A"})], socketToUser := [("S", ⟨"u1", "e"⟩)],
          rooms := [("device:d1", {"A"})], closed := ∅ } ("device:" ++ "d1") = ∅ →
      broadcastTargets (onLocationUpdate
        { connectedDevices := [("d1", {"A"})], socketToUser := [("S", ⟨"u1", "e"⟩)],
          rooms := [("device:d1", {"A"})], closed := ∅ }
        "S" "d1" ⟨40, -74, none, none, none, none⟩ "T0").2 = ∅) :=
  c2_publish_passthrough
    { connectedDevices := [("d1", {"A"})], socketToUser := [("S", ⟨"u1", "e"⟩)],
      rooms := [("device:d1", {"A"})], closed := ∅ }
    "S" "d1" ⟨40, -74, none, none, none, none⟩ "T0" ⟨"u1", "e"⟩ (by decide)


theorem entryOk_addToSet (l : List (String × Finset String)) (key sid : String)
    (closed : Finset String) (hsid : sid ∉ closed)
    (h : ∀ p ∈ l, p.2 ≠ ∅ ∧ ∀ s ∈ p.2, s ∉ closed) :
    ∀ p ∈ addToSet l key sid, p.2 ≠ ∅ ∧ ∀ s ∈ p.2, s ∉ closed := by
  induction l with
  | nil =>
    intro p hp
    simp only [addToSet, List.mem_singleton] at hp
    subst hp
    refine ⟨Finset.singleton_ne_empty sid, ?_⟩
    intro s hs
    rw [Finset.mem_singleton] at hs
    subst hs
    exact hsid
  | cons q t ih =>
    intro p hp
    simp only [addToSet] at hp
    by_cases hq : q.1 = key
    · rw [if_pos hq] at hp
      rcases List.mem_cons.mp hp with h1 | h1
      · subst h1
        refine ⟨Finset.insert_ne_empty sid q.2, ?_⟩
        intro s hs
        rcases Finset.mem_insert.mp hs with rfl | hs
        · exact hsid
        · exact (h q (List.mem_cons_self q t)).2 s hs
      · exact h p (List.mem_cons_of_mem q h1)
    · rw [if_neg hq] at hp
      rcases List.mem_cons.mp hp with h1 | h1
      · subst h1
        exact h p (List.mem_cons_self p t)
      · exact ih (fun r hr => h r (List.mem_cons_of_mem q hr)) p h1

theorem entryOk_removeFromSet (l : List (String × Finset String)) (key sid : String)
    (closed : Finset String)
    (h : ∀ p ∈ l, p.2 ≠ ∅ ∧ ∀ s ∈ p.2, s ∉ closed) :
    ∀ p ∈ removeFromSet l key sid, p.2 ≠ ∅ ∧ ∀ s ∈ p.2, s ∉ closed := by
  induction l with
  | nil =>
    intro p hp
    simp [removeFromSet] at hp
  | cons q t ih =>
    intro p hp
    simp only [removeFromSet] at hp
    by_cases hq : q.1 = key
    · rw [if_pos hq] at hp
      by_cases he : q.2.erase sid = ∅
      · rw [if_pos he] at hp
        exact h p (List.mem_cons_of_mem q hp)
      · rw [if_neg he] at hp
        rcases List.mem_cons.mp hp with h1 | h1
        · subst h1
          refine ⟨he, ?_⟩
          intro s hs
          exact (h q (List.mem_cons_self q t)).2 s (Finset.mem_of_mem_erase hs)
        · exact h p (List.mem_cons_of_mem q h1)
    · rw [if_neg hq] at hp
      rcases List.mem_cons.mp hp with h1 | h1
      · subst h1
        exact h p (List.mem_cons_self p t)
      · exact ih (fun r hr => h r (List.mem_cons_of_mem q hr)) p h1

theorem entryOk_eraseEverywhere (l : List (String × Finset String)) (sid : String)
    (closed : Finset String)
    (h : ∀ p ∈ l, p.2 ≠ ∅ ∧ ∀ s ∈ p.2, s ∉ closed) :
    ∀ p ∈ eraseEverywhere l sid, p.2 ≠ ∅ ∧ ∀ s ∈ p.2, s ∉ insert sid closed := by
  intro p hp
  simp only [eraseEverywhere, List.mem_filterMap] at hp
  obtain ⟨q, hq, hf⟩ := hp
  by_cases he : q.2.erase sid = ∅
  · rw [if_pos he] at hf
    cases hf
  · rw [if_neg he] at hf
    obtain rfl := (Option.some.inj hf).symm
    refine ⟨he, ?_⟩
    intro s hs hmem
    have hsq := Finset.mem_of_mem_erase hs
    have hne := Finset.ne_of_mem_erase hs
    rcases Finset.mem_insert.mp hmem with rfl | hmem
    · exact hne rfl
    · exact (h q hq).2 s hsq hmem

theorem step_closed (st : WsState) (op : WsOp) :
    (step st op).closed =
      (match op with
        | .disconnect s => insert s st.closed
        | _ => st.closed) := by
  cases op with
  | connect s => rfl
  | authenticate s v =>
    cases v with
    | none => rfl
    | some u => rfl
  | deviceRegister s d =>
    simp only [step, onDeviceRegister]
    cases lookupAssoc st.socketToUser s with
    | none => rfl
    | some u => rfl
  | deviceUnregister s d =>
    simp only [step, onDeviceUnregister]
    cases lookupAssoc st.socketToUser s with
    | none => rfl
    | some u => rfl
  | disconnect s => rfl

theorem regOk_step (st : WsState) (op : WsOp) (hop : op.sid ∉ st.closed)
    (h : ∀ p ∈ st.connectedDevices, p.2 ≠ ∅ ∧ ∀ s ∈ p.2, s ∉ st.closed) :
    ∀ p ∈ (step st op).connectedDevices,
      p.2 ≠ ∅ ∧ ∀ s ∈ p.2, s ∉ (step st op).closed := by
  cases op with
  | connect s => exact h
  | authenticate s v =>
    cases v with
    | none => exact h
    | some u => exact h
  | deviceRegister s d =>
    simp only [step, onDeviceRegister]
    cases lookupAssoc st.socketToUser s with
    | none => exact h
    | some u =>
      simp only []
      exact entryOk_addToSet st.connectedDevices d s st.closed hop h
  | deviceUnregister s d =>
    simp only [step, onDeviceUnregister]
    cases lookupAssoc st.socketToUser s with
    | none => exact h
    | some u =>
      simp only []
      exact entryOk_removeFromSet st.connectedDevices d s st.closed h
  | disconnect s =>
    simp only [step, onDisconnect]
    exact entryOk_eraseEverywhere st.connectedDevices s st.closed h

theorem regOk_runOps (ops : List WsOp) : ∀ st : WsState,
    wfFrom st.closed ops = true →
    (∀ p ∈ st.connectedDevices, p.2 ≠ ∅ ∧ ∀ s ∈ p.2, s ∉ st.closed) →
    ∀ p ∈ (runOps st ops).connectedDevices,
      p.2 ≠ ∅ ∧ ∀ s ∈ p.2, s ∉ (runOps st ops).closed := by
  induction ops with
  | nil =>
    intro st _ h
    exact h
  | cons op rest ih =>
    intro st hwf h
    simp only [wfFrom] at hwf
    by_cases hop : op.sid ∈ st.closed
    · rw [if_pos hop] at hwf
      cases hwf
    · rw [if_neg hop] at hwf
      simp only [runOps]
      apply ih
      · rw [step_closed st op]
        exact hwf
      · exact regOk_step st op hop h

/-- C7: after any well-formed finite sequence of connect, authenticate,
device-register (join), device-unregister (leave) and disconnect
(unregister) operations starting from the initial state, every device entry
of `connectedDevices` has a non-empty member set, and no member set contains
a socket id whose disconnect handler has run. -/
theorem c7_membership_invariant (ops : List WsOp)
    (hwf : wfFrom ∅ ops = true) :
    ∀ p ∈ (runOps initState ops).connectedDevices,
      p.2 ≠ ∅ ∧ ∀ s ∈ p.2, s ∉ (runOps initState ops).closed := by
  apply regOk_runOps ops initState hwf
  intro p hp
  cases hp

/-- C7 witness: A and B authenticate and register device d1, then A
disconnects; the trace is well-formed and the invariant holds of the final
state. -/
theorem c7_witness :
    wfFrom ∅
      [.authenticate "A" (some ⟨"uA", "a"⟩), .deviceRegister "A" "d1",
       .authenticate "B" (some ⟨"uB", "b"⟩), .deviceRegister "B" "d1",
       .disconnect "A"] = true ∧
    ∀ p ∈ (runOps initState
      [.authenticate "A" (some ⟨"uA", "a"⟩), .deviceRegister "A" "d1",
       .authenticate "B" (some ⟨"uB", "b"⟩), .deviceRegister "B" "d1",
       .disconnect "A"]).connectedDevices,
      p.2 ≠ ∅ ∧ ∀ s ∈ p.2, s ∉ (runOps initState
        [.authenticate "A" (some ⟨"uA", "a"⟩), .deviceRegister "A" "d1",
         .authenticate "B" (some ⟨"uB", "b"⟩), .deviceRegister "B" "d1",
         .disconnect "A"]).closed :=
  ⟨by decide, c7_membership_invariant
    [.authenticate "A" (some ⟨"uA", "a"⟩), .deviceRegister "A" "d1",
     .authenticate "B" (some ⟨"uB", "b"⟩), .deviceRegister "B" "d1",
     .disconnect "A"] (by decide)⟩

end GpsTracking
